import Mathlib

/-!
Shallow embedding of the my-duka backend core (Flask/SQLAlchemy) in Lean 4.

Source files embedded:
  - src/app/models/user_models.py   (Merchant, Admin, Clerk rows)
  - src/app/models/products.py      (Product row, ProductListResource, ProductResource)
  - src/app/models/inventory.py     (Inventory row, InventoryListResource, InventoryResource)
  - src/app/models/clerk.py         (ClerkResource.put)
  - src/app/auth/login.py           (UserLogin, UserLogout, blacklist callback)
  - src/app/auth/permissions.py     (merchant_required, admin_required)
  - src/app/utils/validators.py     (validate_password; validate_email wraps an
    external library and is modelled as a function parameter)

Modelling conventions:
  - The SQLAlchemy session/database is an explicit record of lists (`DB`); a
    handler that mutates state returns the response together with the new DB.
    An early `return` before `db.session.commit()` leaves the DB unchanged
    (uncommitted attribute writes on ORM objects are never persisted).
  - JSON request bodies are records of `Option` fields: `none` models a JSON
    key that is absent; `'k' in data` becomes `.isSome`.  Numeric JSON values
    are modelled as already-parsed integers / rationals, so the
    `int()`/`float()` `ValueError` branches (400 on non-numeric payloads) are
    outside the model; Python truthiness of ints/strings is modelled
    explicitly (`truthyInt`, nonempty string).
  - Python `float` prices are modelled as `Rat` (no claim depends on
    floating-point rounding).
  - `datetime` audit columns (`created_at`, `updated_at`, `date_recorded`) are
    wall-clock metadata and are omitted; no claim mentions them.
  - bcrypt hashing/verification is the external Credential Store collaborator
    and is passed in as function parameters (`verify`, `hashPw`).
-/

namespace MyDuka

/-- Response of a handler: HTTP status code and message (the `message` field of
the returned JSON).  Payload-bearing responses carry the payload separately. -/
structure Resp where
  status : Nat
  msg : String
  deriving Repr, DecidableEq

/-- Python truthiness of an optional integer (`if not all([...])` checks):
present and nonzero. -/
def truthyInt (o : Option Int) : Bool :=
  match o with
  | some n => n != 0
  | none => false

/-- Python truthiness of an optional rational (a JSON number): present and
nonzero (`0.0` is falsy in Python). -/
def truthyRat (o : Option Rat) : Bool :=
  match o with
  | some q => q != 0
  | none => false

/-- Python truthiness of an optional string: present and nonempty. -/
def truthyStr (o : Option String) : Bool :=
  match o with
  | some s => s != ""
  | none => false

/-- Row of `merchants` (src/app/models/user_models.py, class Merchant). -/
structure Merchant where
  id : Nat
  username : String
  email : String
  password_hash : String
  is_active : Bool
  is_superuser : Bool
  deriving Repr, DecidableEq

/-- Row of `admins` (src/app/models/user_models.py, class Admin).
`store_id` is the Admin's optional store reference: the column is declared in
the source only as a comment ("Will be added when Store model exists") but is
read by src/app/models/inventory.py.  Modelled from the spec: §3 "Admin:
... optional store reference". -/
structure Admin where
  id : Nat
  username : String
  email : String
  password_hash : String
  is_active : Bool
  merchant_id : Nat
  store_id : Option Nat
  deriving Repr, DecidableEq

/-- Row of `clerks` (src/app/models/user_models.py, class Clerk).
`store_id` modelled from the spec (§3 "Clerk: ... optional store reference"),
as for `Admin`. -/
structure Clerk where
  id : Nat
  username : String
  email : String
  password_hash : String
  is_active : Bool
  admin_id : Nat
  store_id : Option Nat
  deriving Repr, DecidableEq

/-- Row of `stores`.  Modelled from the spec: `app/models/store.py` is imported
by inventory.py but absent from the sources; §3 only requires a store to exist
referentially and have a name. -/
structure Store where
  id : Nat
  name : String
  deriving Repr, DecidableEq

/-- Row of `products` (src/app/models/products.py, class Product). -/
structure Product where
  id : Nat
  name : String
  description : Option String
  buying_price : Rat
  selling_price : Rat
  merchant_id : Nat
  is_active : Bool
  deriving Repr, DecidableEq

/-- Row of `inventory_records` (src/app/models/inventory.py, class Inventory). -/
structure Inventory where
  id : Nat
  product_id : Nat
  store_id : Nat
  clerk_id : Option Nat
  quantity_received : Int
  items_in_stock : Int
  items_spoilt : Int
  payment_status : Bool
  buying_price_at_record : Rat
  selling_price_at_record : Rat
  deriving Repr, DecidableEq

/-- The persistent store: one list per table. -/
structure DB where
  merchants : List Merchant
  admins : List Admin
  clerks : List Clerk
  stores : List Store
  products : List Product
  inventories : List Inventory
  deriving Repr, DecidableEq

/-- Model of `Merchant.query.get(id)`. -/
def DB.getMerchant (db : DB) (i : Nat) : Option Merchant :=
  db.merchants.find? (fun m => m.id == i)

/-- Model of `Admin.query.get(id)`. -/
def DB.getAdmin (db : DB) (i : Nat) : Option Admin :=
  db.admins.find? (fun a => a.id == i)

/-- Model of `Clerk.query.get(id)`. -/
def DB.getClerk (db : DB) (i : Nat) : Option Clerk :=
  db.clerks.find? (fun c => c.id == i)

/-- Model of `Store.query.get(id)`. -/
def DB.getStore (db : DB) (i : Nat) : Option Store :=
  db.stores.find? (fun s => s.id == i)

/-- Model of `Product.query.get(id)`. -/
def DB.getProduct (db : DB) (i : Nat) : Option Product :=
  db.products.find? (fun p => p.id == i)

/-- Model of `Inventory.query.get(id)`. -/
def DB.getInventory (db : DB) (i : Nat) : Option Inventory :=
  db.inventories.find? (fun r => r.id == i)

/-- Model of `Merchant.query.filter_by(email=email).first()`. -/
def DB.merchantByEmail (db : DB) (e : String) : Option Merchant :=
  db.merchants.find? (fun m => m.email == e)

/-- Model of `Admin.query.filter_by(email=email).first()`. -/
def DB.adminByEmail (db : DB) (e : String) : Option Admin :=
  db.admins.find? (fun a => a.email == e)

/-- Model of `Clerk.query.filter_by(email=email).first()`. -/
def DB.clerkByEmail (db : DB) (e : String) : Option Clerk :=
  db.clerks.find? (fun c => c.email == e)

/-! ## src/app/utils/validators.py -/

/-- The special characters of `validate_password`'s last regex class,
`[!@#$%^&*(),.?\":\x7b\x7d|<>]`. -/
def passwordSpecialChars : List Char :=
  "!@#$%^&*(),.?\":\x7b\x7d|<>".toList

/-- Model of `validate_password` (src/app/utils/validators.py): at least 8 characters,
one ASCII uppercase, one lowercase, one digit, one special character. -/
def validate_password (p : String) : Bool :=
  let cs := p.toList
  decide (p.length ≥ 8) && cs.any Char.isUpper && cs.any Char.isLower
    && cs.any (fun c => c.isDigit) && cs.any (fun c => passwordSpecialChars.contains c)

/-! ## src/app/auth/permissions.py -/

/-- Model of `merchant_required` (src/app/auth/permissions.py): the wrapped handler runs
iff the JWT identity resolves to a Merchant row with `is_superuser`; the
`is_active` flag is NOT consulted.  `true` = proceed, `false` = the decorator
returns the 403 "Merchant (Superuser) access required" response. -/
def merchant_required (db : DB) (uid : Nat) : Bool :=
  match db.getMerchant uid with
  | some m => m.is_superuser
  | none => false

/-- Model of `admin_required` (src/app/auth/permissions.py): handler runs iff the JWT
identity resolves to an Admin row; `is_active` is not consulted. -/
def admin_required (db : DB) (uid : Nat) : Bool :=
  (db.getAdmin uid).isSome

/-- Modelled from the spec: `clerk_required` is imported by
src/app/models/inventory.py and src/app/models/clerk.py but exists in
src/app/auth/permissions.py only as a TODO comment.  Per spec §4.3 the
Inventory Create action is "allowed for Clerk only": the guard passes iff the
authenticated principal's role claim is clerk and the clerk row resolves. -/
def clerk_required (db : DB) (userType : String) (uid : Nat) : Bool :=
  userType == "clerk" && (db.getClerk uid).isSome

/-! ## src/app/auth/login.py -/

/-- A JWT as issued by `create_access_token` / `create_refresh_token`:
subject identity, the `user_type` additional claim, the unique `jti`, and the
expiry instant. -/
structure Token where
  identity : Nat
  user_type : String
  jti : String
  exp : Nat
  deriving Repr, DecidableEq

/-- Model of `check_if_token_in_blacklist` (src/app/auth/login.py): a token is revoked
iff its `jti` is in the module-level `blacklist` set. -/
def check_if_token_in_blacklist (blacklist : List String) (jti : String) : Bool :=
  blacklist.contains jti

/-- Model of `UserLogout.post` (src/app/auth/login.py): adds the presented token's `jti`
to the blacklist and returns the new blacklist. -/
def UserLogout.post (blacklist : List String) (jti : String) : List String :=
  jti :: blacklist

/-- Token validation by the external verifier (flask_jwt_extended), modelled
from the spec §4.1: `validate(token)` "fails if signature invalid, expired, or
jti ∈ revocation set"; the revocation test is the source callback
`check_if_token_in_blacklist`.  Signatures are not modelled (all tokens the
model constructs are well signed). -/
def validateToken (blacklist : List String) (t : Token) (now : Nat) : Bool :=
  decide (now < t.exp) && !(check_if_token_in_blacklist blacklist t.jti)

/-- Result of `UserLogin.post`: response plus, on success, the issued pair of
tokens and the resolved `user_type` string. -/
structure LoginResult where
  resp : Resp
  access_token : Option Token
  refresh_token : Option Token
  user_type : Option String
  user_id : Option Nat
  deriving Repr, DecidableEq

/-- A failed login: response only. -/
def loginFail (r : Resp) : LoginResult :=
  ⟨r, none, none, none, none⟩

/-- Model of `UserLogin.post` (src/app/auth/login.py).  `verify` is the external bcrypt
check (`check_password`), `ve` the external `validators.email` predicate;
`accessJti`/`refreshJti`/`accessExp`/`refreshExp` stand for the token ids and
expiries minted by flask_jwt_extended. -/
def UserLogin.post (verify : String → String → Bool) (ve : String → Bool)
    (db : DB) (email password : Option String)
    (accessJti refreshJti : String) (accessExp refreshExp : Nat) : LoginResult :=
  if !(truthyStr email && truthyStr password) then
    loginFail ⟨400, "Missing email or password"⟩
  else
    let e := email.getD ""
    let pw := password.getD ""
    if !(ve e) then
      loginFail ⟨400, "Invalid email format"⟩
    else
      -- Prioritize Merchant, then Admin, then Clerk
      let found : Option (String × Nat × String × Bool) :=
        match db.merchantByEmail e with
        | some m => some ("merchant", m.id, m.password_hash, m.is_active)
        | none =>
          match db.adminByEmail e with
          | some a => some ("admin", a.id, a.password_hash, a.is_active)
          | none =>
            match db.clerkByEmail e with
            | some c => some ("clerk", c.id, c.password_hash, c.is_active)
            | none => none
      match found with
      | none => loginFail ⟨401, "Invalid credentials"⟩
      | some (ut, uid, hash, act) =>
        if !(verify pw hash) then
          loginFail ⟨401, "Invalid credentials"⟩
        else if !act then
          loginFail ⟨403, "Account is inactive. Please contact support."⟩
        else
          ⟨⟨200, "Login successful"⟩,
            some ⟨uid, ut, accessJti, accessExp⟩,
            some ⟨uid, ut, refreshJti, refreshExp⟩,
            some ut, some uid⟩

/-! ## src/app/models/inventory.py -/

/-- Next autoincrement id for `inventory_records`. -/
def DB.freshInventoryId (db : DB) : Nat :=
  (db.inventories.map (fun r => r.id)).foldr max 0 + 1

/-- Replace the inventory record with id `rid` by `r` (the committed effect of
mutating the ORM object and calling `db.session.commit()`). -/
def DB.setInventory (db : DB) (rid : Nat) (r : Inventory) : DB :=
  { db with inventories := db.inventories.map (fun x => if x.id == rid then r else x) }

/-- JSON body of `InventoryListResource.post`.  `none` = key absent. -/
structure InvPostData where
  product_id : Option Int
  store_id : Option Int
  quantity_received : Option Int
  items_spoilt : Option Int
  payment_status : Option Bool
  deriving Repr, DecidableEq

/-- Result of `InventoryListResource.post`: response, new DB, and the created
record (returned in the 201 payload). -/
structure InvPostResult where
  resp : Resp
  db : DB
  created : Option Inventory
  deriving Repr, DecidableEq

/-- Model of `InventoryListResource.post` (src/app/models/inventory.py).  The
`@clerk_required()` decorator gates the body; `uid` is the JWT identity,
`userType` the JWT `user_type` claim. -/
def InventoryListResource.post (db : DB) (userType : String) (uid : Nat)
    (data : InvPostData) : InvPostResult :=
  if !(clerk_required db userType uid) then
    ⟨⟨403, "Clerk access required"⟩, db, none⟩
  else
    match db.getClerk uid with
    | none => ⟨⟨404, "Clerk not found"⟩, db, none⟩
    | some clerk =>
      if !(truthyInt data.product_id && truthyInt data.store_id
            && data.quantity_received.isSome) then
        ⟨⟨400, "Missing required fields: product_id, store_id, quantity_received"⟩, db, none⟩
      else
        let pid : Int := data.product_id.getD 0
        let sid : Int := data.store_id.getD 0
        let qr : Int := data.quantity_received.getD 0
        let sp : Int := data.items_spoilt.getD 0
        if qr < 0 || sp < 0 then
          ⟨⟨400, "Quantities cannot be negative"⟩, db, none⟩
        else
          match db.products.find? (fun p => (p.id : Int) == pid) with
          | none => ⟨⟨404, "Product with ID " ++ toString pid ++ " not found"⟩, db, none⟩
          | some product =>
            match db.stores.find? (fun s => (s.id : Int) == sid) with
            | none => ⟨⟨404, "Store with ID " ++ toString sid ++ " not found"⟩, db, none⟩
            | some _ =>
              -- `if clerk.store_id and clerk.store_id != store_id`
              if (match clerk.store_id with
                  | some s => !(s == 0) && ((s : Int) != sid)
                  | none => false) then
                ⟨⟨403, "Clerk is not assigned to this store"⟩, db, none⟩
              else
                let rec_ : Inventory :=
                  { id := db.freshInventoryId
                    product_id := pid.toNat
                    store_id := sid.toNat
                    clerk_id := some uid
                    quantity_received := qr
                    items_in_stock := qr - sp
                    items_spoilt := sp
                    payment_status := data.payment_status.getD false
                    buying_price_at_record := product.buying_price
                    selling_price_at_record := product.selling_price }
                ⟨⟨201, "Inventory record created successfully"⟩,
                  { db with inventories := db.inventories ++ [rec_] }, some rec_⟩

/-- Model of `InventoryListResource.get` (src/app/models/inventory.py): response plus
the returned record list on success. -/
def InventoryListResource.get (db : DB) (userType : String) (uid : Nat) :
    Resp × Option (List Inventory) :=
  if !(["merchant", "admin", "clerk"].contains userType) then
    (⟨403, "Authentication required to view inventory records"⟩, none)
  else if userType == "admin" then
    match db.getAdmin uid with
    | none => (⟨404, "Admin not found"⟩, none)
    | some admin =>
      match admin.store_id with
      | some s =>
        if s == 0 then
          (⟨403, "Admin not assigned to a store. Cannot view specific inventory records."⟩, none)
        else
          (⟨200, ""⟩, some (db.inventories.filter (fun r => r.store_id == s)))
      | none =>
        (⟨403, "Admin not assigned to a store. Cannot view specific inventory records."⟩, none)
  else if userType == "clerk" then
    match db.getClerk uid with
    | none => (⟨404, "Clerk not found"⟩, none)
    | some _ =>
      (⟨200, ""⟩, some (db.inventories.filter (fun r => r.clerk_id == some uid)))
  else
    (⟨200, ""⟩, some db.inventories)

/-- JSON body of `InventoryResource.put`.  `none` = key absent. -/
structure InvPutData where
  quantity_received : Option Int
  items_in_stock : Option Int
  items_spoilt : Option Int
  payment_status : Option Bool
  buying_price_at_record : Option Rat
  selling_price_at_record : Option Rat
  deriving Repr, DecidableEq

/-- Model of `admin.store_id and admin.store_id != record.store_id` (Python truthiness
of the optional store id, then inequality). -/
def adminStoreMismatch (a : Admin) (r : Inventory) : Bool :=
  match a.store_id with
  | some s => !(s == 0) && !(s == r.store_id)
  | none => false

/-- Merchant section of `InventoryResource.put` (src/app/models/inventory.py,
"Merchant specific updates (can update all fields)"): the present fields are
applied in source order, each numeric one validated non-negative with an early
400 return (before commit, so the DB is unchanged on failure).  The source's
straight-line sequence of `if 'field' in data:` blocks is rendered as one
small function per field, chained in the same order; `mStepSelling` is the
last field block, falling through to the commit. -/
def mStepSelling (db : DB) (record_id : Nat) (data : InvPutData)
    (r : Inventory) : Resp × DB :=
  match data.selling_price_at_record with
  | some v =>
    if v < 0 then (⟨400, "Selling price cannot be negative"⟩, db)
    else (⟨200, "Inventory record updated successfully"⟩,
      db.setInventory record_id { r with selling_price_at_record := v })
  | none => (⟨200, "Inventory record updated successfully"⟩, db.setInventory record_id r)

/-- Merchant update, `buying_price_at_record` block. -/
def mStepBuying (db : DB) (record_id : Nat) (data : InvPutData)
    (r : Inventory) : Resp × DB :=
  match data.buying_price_at_record with
  | some v =>
    if v < 0 then (⟨400, "Buying price cannot be negative"⟩, db)
    else mStepSelling db record_id data { r with buying_price_at_record := v }
  | none => mStepSelling db record_id data r

/-- Merchant update, `payment_status` block (no validation). -/
def mStepPayment (db : DB) (record_id : Nat) (data : InvPutData)
    (r : Inventory) : Resp × DB :=
  match data.payment_status with
  | some v => mStepBuying db record_id data { r with payment_status := v }
  | none => mStepBuying db record_id data r

/-- Merchant update, `items_spoilt` block. -/
def mStepSpoilt (db : DB) (record_id : Nat) (data : InvPutData)
    (r : Inventory) : Resp × DB :=
  match data.items_spoilt with
  | some v =>
    if v < 0 then (⟨400, "Items spoilt cannot be negative"⟩, db)
    else mStepPayment db record_id data { r with items_spoilt := v }
  | none => mStepPayment db record_id data r

/-- Merchant update, `items_in_stock` block. -/
def mStepStock (db : DB) (record_id : Nat) (data : InvPutData)
    (r : Inventory) : Resp × DB :=
  match data.items_in_stock with
  | some v =>
    if v < 0 then (⟨400, "Items in stock cannot be negative"⟩, db)
    else mStepSpoilt db record_id data { r with items_in_stock := v }
  | none => mStepSpoilt db record_id data r

/-- Merchant update, entry point: `quantity_received` block first. -/
def merchantInvUpdate (db : DB) (record_id : Nat) (data : InvPutData)
    (record : Inventory) : Resp × DB :=
  match data.quantity_received with
  | some v =>
    if v < 0 then (⟨400, "Quantity received cannot be negative"⟩, db)
    else mStepStock db record_id data { record with quantity_received := v }
  | none => mStepStock db record_id data record

/-- Model of `InventoryResource.put` (src/app/models/inventory.py).  Early returns
before `db.session.commit()` leave the DB unchanged. -/
def InventoryResource.put (db : DB) (userType : String) (uid : Nat)
    (record_id : Nat) (data : InvPutData) : Resp × DB :=
  match db.getInventory record_id with
  | none => (⟨404, "Inventory record not found"⟩, db)
  | some record =>
    if userType == "merchant" then
      merchantInvUpdate db record_id data record
    else if userType == "admin" then
      match db.getAdmin uid with
      | none => (⟨403, "Unauthorized to update this inventory record"⟩, db)
      | some admin =>
        if adminStoreMismatch admin record then
          (⟨403, "Unauthorized to update this inventory record"⟩, db)
        else if data.quantity_received.isSome || data.items_in_stock.isSome
            || data.items_spoilt.isSome || data.buying_price_at_record.isSome
            || data.selling_price_at_record.isSome then
          (⟨403, "Admins can only update payment status of inventory records"⟩, db)
        else
          match data.payment_status with
          | some v =>
            (⟨200, "Inventory record updated successfully"⟩,
              db.setInventory record_id { record with payment_status := v })
          | none => (⟨400, "No valid fields for Admin to update provided"⟩, db)
    else if userType == "clerk" then
      match db.getClerk uid with
      | none => (⟨403, "Unauthorized to update this inventory record"⟩, db)
      | some clerk =>
        if !(some clerk.id == record.clerk_id) then
          (⟨403, "Unauthorized to update this inventory record"⟩, db)
        else if data.payment_status.isSome || data.quantity_received.isSome
            || data.buying_price_at_record.isSome
            || data.selling_price_at_record.isSome then
          (⟨403, "Clerks can only update stock and spoilt items in inventory records"⟩, db)
        else
          let finish : Inventory → Resp × DB := fun r =>
            if !(data.items_in_stock.isSome || data.items_spoilt.isSome) then
              (⟨400, "No valid fields for Clerk to update provided"⟩, db)
            else
              (⟨200, "Inventory record updated successfully"⟩, db.setInventory record_id r)
          let applySpoilt : Inventory → Resp × DB := fun r =>
            match data.items_spoilt with
            | some v =>
              if v < 0 then (⟨400, "Items spoilt cannot be negative"⟩, db)
              else finish { r with items_spoilt := v }
            | none => finish r
          match data.items_in_stock with
          | some v =>
            if v < 0 then (⟨400, "Items in stock cannot be negative"⟩, db)
            else applySpoilt { record with items_in_stock := v }
          | none => applySpoilt record
    else
      (⟨403, "Unauthorized to update this inventory record"⟩, db)

/-- Model of `InventoryResource.delete` (src/app/models/inventory.py): gated by
`@merchant_required()`; hard delete. -/
def InventoryResource.delete (db : DB) (uid : Nat) (record_id : Nat) : Resp × DB :=
  if !(merchant_required db uid) then
    (⟨403, "Merchant (Superuser) access required"⟩, db)
  else
    match db.getInventory record_id with
    | none => (⟨404, "Inventory record not found"⟩, db)
    | some _ =>
      (⟨204, "Inventory record deleted successfully"⟩,
        { db with inventories := db.inventories.filter (fun r => !(r.id == record_id)) })

/-! ## src/app/models/products.py -/

/-- Replace the product with id `pid` by `p` (committed update). -/
def DB.setProduct (db : DB) (pid : Nat) (p : Product) : DB :=
  { db with products := db.products.map (fun x => if x.id == pid then p else x) }

/-- Next autoincrement id for `products`. -/
def DB.freshProductId (db : DB) : Nat :=
  (db.products.map (fun p => p.id)).foldr max 0 + 1

/-- JSON body of `ProductListResource.post`. -/
structure ProdPostData where
  name : Option String
  description : Option String
  buying_price : Option Rat
  selling_price : Option Rat
  deriving Repr, DecidableEq

/-- Result of `ProductListResource.post`. -/
structure ProdPostResult where
  resp : Resp
  db : DB
  created : Option Product
  deriving Repr, DecidableEq

/-- Model of `ProductListResource.post` (src/app/models/products.py).  The unique
constraint on `products.name` is enforced by the storage layer: a duplicate
insert raises `IntegrityError`, which the handler rolls back and maps to 409. -/
def ProductListResource.post (db : DB) (userType : String) (uid : Nat)
    (data : ProdPostData) : ProdPostResult :=
  if !(["merchant", "admin"].contains userType) then
    ⟨⟨403, "Merchant or Admin access required to create products"⟩, db, none⟩
  else if !(truthyStr data.name && truthyRat data.buying_price
        && data.selling_price.isSome) then
    ⟨⟨400, "Missing required fields: name, buying_price, selling_price"⟩, db, none⟩
  else
    let name := data.name.getD ""
    let bp := data.buying_price.getD 0
    let sp := data.selling_price.getD 0
    if bp < 0 || sp < 0 then
      ⟨⟨400, "Prices cannot be negative"⟩, db, none⟩
    else
      let mid? : Option Nat :=
        if userType == "merchant" then some uid
        else match db.getAdmin uid with
          | some a => some a.merchant_id
          | none => none
      match mid? with
      | none => ⟨⟨404, "Admin not found for product creation"⟩, db, none⟩
      | some mid =>
        if db.products.any (fun p => p.name == name) then
          ⟨⟨409, "Product with this name already exists"⟩, db, none⟩
        else
          let p : Product :=
            { id := db.freshProductId, name := name, description := data.description
              buying_price := bp, selling_price := sp, merchant_id := mid
              is_active := true }
          ⟨⟨201, "Product created successfully"⟩,
            { db with products := db.products ++ [p] }, some p⟩

/-- JSON body of `ProductResource.put`.  `description` distinguishes an absent
key (`none`) from an explicit JSON `null` (`some none`). -/
structure ProdPutData where
  name : Option String
  description : Option (Option String)
  buying_price : Option Rat
  selling_price : Option Rat
  is_active : Option Bool
  deriving Repr, DecidableEq

/-- Model of `ProductResource.put` (src/app/models/products.py).  Early 400 returns
happen before `db.session.commit()`, so the DB is unchanged there; a name
clash with a different row raises `IntegrityError` at commit, rolled back to
409. -/
def ProductResource.put (db : DB) (userType : String) (uid : Nat)
    (product_id : Nat) (data : ProdPutData) : Resp × DB :=
  if !(["merchant", "admin"].contains userType) then
    (⟨403, "Merchant or Admin access required to update products"⟩, db)
  else
    match db.getProduct product_id with
    | none => (⟨404, "Product not found"⟩, db)
    | some product =>
      let scopeOk : Bool :=
        if userType == "merchant" then product.merchant_id == uid
        else match db.getAdmin uid with
          | some a => product.merchant_id == a.merchant_id
          | none => false
      if !scopeOk then
        (⟨403, "Unauthorized to update this product"⟩, db)
      else
        let name := data.name.getD product.name
        let desc := data.description.getD product.description
        let bp := data.buying_price.getD product.buying_price
        let sp := data.selling_price.getD product.selling_price
        let act := data.is_active.getD product.is_active
        let p1 := if name != "" then { product with name := name } else product
        let p2 := if desc.isSome then { p1 with description := desc } else p1
        if bp < 0 then (⟨400, "Buying price cannot be negative"⟩, db)
        else
          let p3 := { p2 with buying_price := bp }
          if sp < 0 then (⟨400, "Selling price cannot be negative"⟩, db)
          else
            let p4 := { p3 with selling_price := sp }
            let p5 := { p4 with is_active := act }
            if db.products.any (fun q => !(q.id == product_id) && q.name == p5.name) then
              (⟨409, "Product with this name already exists"⟩, db)
            else
              (⟨200, "Product updated successfully"⟩, db.setProduct product_id p5)

/-! ## src/app/models/clerk.py -/

/-- Replace the clerk with id `cid` by `c` (committed update). -/
def DB.setClerk (db : DB) (cid : Nat) (c : Clerk) : DB :=
  { db with clerks := db.clerks.map (fun x => if x.id == cid then c else x) }

/-- JSON body of `ClerkResource.put`. -/
structure ClerkPutData where
  username : Option String
  email : Option String
  password : Option String
  is_active : Option Bool
  deriving Repr, DecidableEq

/-- Commit of `ClerkResource.put` (src/app/models/clerk.py): the unique
constraints on `clerks.username` / `clerks.email` surface as `IntegrityError`
at commit, mapped to 409 with rollback; otherwise the mutated row `t` replaces
the target row. -/
def clerkCommit (db : DB) (target t : Clerk) : Resp × DB :=
  if db.clerks.any (fun c => !(c.id == target.id)
      && (c.username == t.username || c.email == t.email)) then
    (⟨409, "Username or email already exists"⟩, db)
  else
    (⟨200, "Clerk updated successfully"⟩, db.setClerk target.id t)

/-- Model of `is_active` block of `ClerkResource.put`: "Only Admin or Merchant can
change active status of clerks"; a plain clerk restating the current value is
let through, a differing value is rejected 403 before commit. -/
def clerkActiveStep (db : DB) (data : ClerkPutData) (target t : Clerk)
    (is_merchant is_admin : Bool) : Resp × DB :=
  let isActiveV := data.is_active.getD target.is_active
  if is_merchant || is_admin then
    clerkCommit db target { t with is_active := isActiveV }
  else if !(isActiveV == target.is_active) then
    (⟨403, "Clerks cannot change their own active status"⟩, db)
  else
    clerkCommit db target t

/-- Model of `password` block of `ClerkResource.put`: a present, truthy password must
pass `validate_password` and is stored hashed. -/
def clerkPwStep (hashPw : String → String) (db : DB) (data : ClerkPutData)
    (target t : Clerk) (is_merchant is_admin : Bool) : Resp × DB :=
  match data.password with
  | some p =>
    if p != "" then
      if !(validate_password p) then
        (⟨400, "Password does not meet requirements"⟩, db)
      else clerkActiveStep db data target { t with password_hash := hashPw p }
        is_merchant is_admin
    else clerkActiveStep db data target t is_merchant is_admin
  | none => clerkActiveStep db data target t is_merchant is_admin

/-- Model of `email` block of `ClerkResource.put`: the effective email (request value,
defaulting to the stored one) is validated when truthy. -/
def clerkEmailStep (ve : String → Bool) (hashPw : String → String) (db : DB)
    (data : ClerkPutData) (target t : Clerk) (is_merchant is_admin : Bool) :
    Resp × DB :=
  let email := data.email.getD target.email
  if email != "" then
    if !(ve email) then (⟨400, "Invalid email format"⟩, db)
    else clerkPwStep hashPw db data target { t with email := email }
      is_merchant is_admin
  else clerkPwStep hashPw db data target t is_merchant is_admin

/-- Model of `ClerkResource.put` (src/app/models/clerk.py).  `clerk_id = none` is the
`/profile` route (caller updating their own clerk row); `ve` is the external
`validators.email` predicate and `hashPw` the external bcrypt hash.  The
field blocks of the handler body (username, email, password, is_active,
commit) are the step functions above, chained in source order. -/
def ClerkResource.put (ve : String → Bool) (hashPw : String → String)
    (db : DB) (uid : Nat) (clerk_id : Option Nat) (data : ClerkPutData) :
    Resp × DB :=
  let merchant := db.getMerchant uid
  let admin := db.getAdmin uid
  let is_merchant : Bool := match merchant with
    | some m => m.is_superuser
    | none => false
  let is_admin : Bool := admin.isSome
  let target? : (Resp × DB) ⊕ Clerk :=
    match clerk_id with
    | none =>
      match db.getClerk uid with
      | none => Sum.inl (⟨404, "Clerk profile not found"⟩, db)
      | some c => Sum.inr c
    | some cid =>
      if !(is_merchant || is_admin) then
        Sum.inl (⟨403, "Admin or Merchant access required to update other clerk profiles"⟩, db)
      else
        match db.getClerk cid with
        | none => Sum.inl (⟨404, "Clerk not found"⟩, db)
        | some c => Sum.inr c
  match target? with
  | Sum.inl out => out
  | Sum.inr target =>
    let username := data.username.getD target.username
    let t1 := if username != "" then { target with username := username } else target
    clerkEmailStep ve hashPw db data target t1 is_merchant is_admin

/-! ## Concrete sample data (used to witness the theorems below) -/

/-- Sample tenant merchant. -/
def sampleMerchant : Merchant := ⟨1, "mary", "mary@duka.com", "hm", true, true⟩

/-- Sample admin assigned to store 10. -/
def sampleAdmin : Admin := ⟨2, "alan", "alan@duka.com", "ha", true, 1, some 10⟩

/-- Sample admin with no assigned store. -/
def sampleAdminNoStore : Admin := ⟨3, "ann", "ann@duka.com", "hn", true, 1, none⟩

/-- Sample clerk assigned to store 10. -/
def sampleClerk : Clerk := ⟨4, "carl", "carl@duka.com", "hc", true, 2, some 10⟩

/-- Sample product (buying 10, selling 15). -/
def sampleProduct : Product := ⟨5, "Rice", none, 10, 15, 1, true⟩

/-- Sample inventory record created by the sample clerk at store 10. -/
def sampleRecord : Inventory := ⟨1, 5, 10, some 4, 100, 95, 5, false, 10, 15⟩

/-- Sample database tying the rows above together (stores 10 and 20 exist). -/
def sampleDb : DB :=
  ⟨[sampleMerchant], [sampleAdmin, sampleAdminNoStore], [sampleClerk],
    [⟨10, "Main"⟩, ⟨20, "Branch"⟩], [sampleProduct], [sampleRecord]⟩

/-- A well-formed creation request by the sample clerk for store 10. -/
def samplePostData : InvPostData := ⟨some 5, some 10, some 7, some 2, none⟩

/-- The same creation request pointed at store 20 (not the clerk's store). -/
def sampleWrongStorePost : InvPostData := ⟨some 5, some 20, some 7, some 2, none⟩

/-- An update request body carrying no fields at all. -/
def noFieldsUpdate : InvPutData := ⟨none, none, none, none, none, none⟩

/-- A merchant whose account has been deactivated (`is_active = false`) but
which keeps its superuser bit, as deactivation only flips the flag. -/
def inactiveMerchant : Merchant := ⟨1, "mona", "mona@duka.com", "hi", false, true⟩

/-- Database holding only the deactivated merchant and one inventory record. -/
def dbInactiveMerchant : DB :=
  ⟨[inactiveMerchant], [], [], [⟨10, "Main"⟩], [⟨5, "Rice", none, 10, 15, 1, true⟩],
    [⟨1, 5, 10, none, 3, 3, 0, false, 10, 15⟩]⟩

/-- An admin whose account has been deactivated. -/
def inactiveAdmin : Admin := ⟨7, "ada", "ada@duka.com", "hp", false, 1, none⟩

/-- Database holding only the deactivated admin. -/
def dbInactiveAdmin : DB := ⟨[], [inactiveAdmin], [], [], [], []⟩

/-- A clerk whose account has been deactivated. -/
def inactiveClerk : Clerk := ⟨8, "cla", "cla@duka.com", "hq", false, 2, none⟩

/-- Database holding only the deactivated clerk. -/
def dbInactiveClerk : DB := ⟨[], [], [inactiveClerk], [], [], []⟩

/-- Database in which the same email exists both as a merchant and as an
admin (and the two rows have the same password hash). -/
def dbDupEmail : DB :=
  ⟨[⟨1, "m", "dup@duka.com", "pw", true, true⟩],
    [⟨2, "a", "dup@duka.com", "pw", true, 1, none⟩], [], [], [], []⟩

end MyDuka

namespace MyDuka

/-- Revocations only ever add to the blacklist: membership is preserved under
any further sequence of logouts. -/
theorem mem_foldl_logout (ops : List String) (bl : List String) (j : String)
    (h : j ∈ bl) : j ∈ ops.foldl (fun b x => UserLogout.post b x) bl := by
  induction ops generalizing bl with
  | nil => simpa using h
  | cons a tl ih => exact ih _ (List.mem_cons_of_mem _ h)

/-- C3: after logout adds a token's jti to the revocation set, every
subsequent validation of any token carrying that jti fails (for any further
sequence of logouts and any current time, in particular before expiry). -/
theorem token_revocation_effective (bl : List String) (ops : List String)
    (t : Token) (now : Nat) :
    validateToken
      (ops.foldl (fun b x => UserLogout.post b x) (UserLogout.post bl t.jti))
      t now = false := by
  have hmem : t.jti ∈ ops.foldl (fun b x => UserLogout.post b x)
      (UserLogout.post bl t.jti) :=
    mem_foldl_logout _ _ _ (by simp [UserLogout.post])
  simp [validateToken, check_if_token_in_blacklist, List.elem_iff, hmem]

/-- C9: login resolves an email through the Merchant table first, then Admin,
then Clerk, so a successful login for an email present in several role tables
authenticates as the higher-priority role, and both issued tokens carry that
role's user_type claim. -/
theorem login_role_priority (verify : String → String → Bool) (ve : String → Bool)
    (db : DB) (email password : Option String) (aj rj : String) (ae re : Nat)
    (h : (UserLogin.post verify ve db email password aj rj ae re).resp.status = 200) :
    ((db.merchantByEmail (email.getD "")).isSome →
      (UserLogin.post verify ve db email password aj rj ae re).user_type = some "merchant") ∧
    (db.merchantByEmail (email.getD "") = none →
      (db.adminByEmail (email.getD "")).isSome →
      (UserLogin.post verify ve db email password aj rj ae re).user_type = some "admin") ∧
    (db.merchantByEmail (email.getD "") = none →
      db.adminByEmail (email.getD "") = none →
      (db.clerkByEmail (email.getD "")).isSome →
      (UserLogin.post verify ve db email password aj rj ae re).user_type = some "clerk") ∧
    (∀ t, (UserLogin.post verify ve db email password aj rj ae re).access_token = some t →
      (UserLogin.post verify ve db email password aj rj ae re).user_type = some t.user_type) ∧
    (∀ t, (UserLogin.post verify ve db email password aj rj ae re).refresh_token = some t →
      (UserLogin.post verify ve db email password aj rj ae re).user_type = some t.user_type) := by
  generalize hL : UserLogin.post verify ve db email password aj rj ae re = L at h ⊢
  unfold UserLogin.post at hL
  simp only [] at hL
  split at hL
  · rw [← hL] at h; simp [loginFail] at h
  · split at hL
    · rw [← hL] at h; simp [loginFail] at h
    · split at hL
      next heq =>
        rw [← hL] at h; simp [loginFail] at h
      next ut uid hash act heq =>
        split at hL
        · rw [← hL] at h; simp [loginFail] at h
        · split at hL
          · rw [← hL] at h; simp [loginFail] at h
          · subst hL
            refine ⟨?_, ?_, ?_, ?_, ?_⟩
            · intro hsome
              rcases hm : db.merchantByEmail (email.getD "") with _ | m
              · rw [hm] at hsome; simp at hsome
              · rw [hm] at heq
                simp only [Option.some.injEq, Prod.mk.injEq] at heq
                simp [← heq.1]
            · intro hm1 hm2
              rw [hm1] at heq
              rcases ha : db.adminByEmail (email.getD "") with _ | a
              · rw [ha] at hm2; simp at hm2
              · rw [ha] at heq
                simp only [Option.some.injEq, Prod.mk.injEq] at heq
                simp [← heq.1]
            · intro hm1 ha1 hc
              rw [hm1, ha1] at heq
              rcases hcq : db.clerkByEmail (email.getD "") with _ | c
              · rw [hcq] at hc; simp at hc
              · rw [hcq] at heq
                simp only [Option.some.injEq, Prod.mk.injEq] at heq
                simp [← heq.1]
            · intro t ht
              simp only [Option.some.injEq] at ht
              simp [← ht]
            · intro t ht
              simp only [Option.some.injEq] at ht
              simp [← ht]

/-- C8: creating a second Product with the name of an existing one yields the
distinct 409 conflict response, and the database (in particular the existing
product) is unchanged, with no partial record left behind. -/
theorem product_name_conflict (db : DB) (uid : Nat) (data : ProdPostData)
    (existing : Product) (hmem : existing ∈ db.products)
    (hname : data.name = some existing.name) (hne : existing.name ≠ "")
    (hbp : truthyRat data.buying_price = true)
    (hsp : data.selling_price.isSome = true)
    (hbp0 : 0 ≤ data.buying_price.getD 0) (hsp0 : 0 ≤ data.selling_price.getD 0) :
    ProductListResource.post db "merchant" uid data =
      ⟨⟨409, "Product with this name already exists"⟩, db, none⟩ := by
  simp [ProductListResource.post, hname, hne, hbp, hsp, truthyStr,
    not_lt.mpr hbp0, not_lt.mpr hsp0]
  exact ⟨existing, hmem, rfl⟩

/-- C4: an Admin with no assigned store is denied (403) both listing and
creating inventory records; the list denial is a permission error, not an
empty result, and creation is clerk-only. -/
theorem storeless_admin_inventory_denied (db : DB) (uid : Nat) (admin : Admin)
    (hA : db.getAdmin uid = some admin) (hs : admin.store_id = none) :
    InventoryListResource.get db "admin" uid =
      (⟨403, "Admin not assigned to a store. Cannot view specific inventory records."⟩,
        none) ∧
    ∀ data, InventoryListResource.post db "admin" uid data =
      ⟨⟨403, "Clerk access required"⟩, db, none⟩ := by
  constructor
  · simp [InventoryListResource.get, hA, hs]
  · intro data
    simp [InventoryListResource.post, clerk_required]

/-- C5: a Clerk with an assigned store attempting to create an inventory
record for a different (existing) store is rejected with the 403 scope
violation and no record is created. -/
theorem clerk_store_scope_enforced (db : DB) (uid : Nat) (clerk : Clerk)
    (s : Nat) (data : InvPostData) (product : Product) (store : Store)
    (hc : db.getClerk uid = some clerk)
    (hs : clerk.store_id = some s) (hs0 : s ≠ 0)
    (hmis : (s : Int) ≠ data.store_id.getD 0)
    (hpid : truthyInt data.product_id = true)
    (hsid : truthyInt data.store_id = true)
    (hqr : data.quantity_received.isSome = true)
    (hq0 : 0 ≤ data.quantity_received.getD 0)
    (hsp0 : 0 ≤ data.items_spoilt.getD 0)
    (hprod : db.products.find? (fun p => (p.id : Int) == data.product_id.getD 0)
      = some product)
    (hstore : db.stores.find? (fun st => (st.id : Int) == data.store_id.getD 0)
      = some store) :
    InventoryListResource.post db "clerk" uid data =
      ⟨⟨403, "Clerk is not assigned to this store"⟩, db, none⟩ := by
  unfold InventoryListResource.post clerk_required
  simp [hc, hs, hs0, hmis, hpid, hsid, hqr, hprod, hstore,
    not_lt.mpr hq0, not_lt.mpr hsp0]

/-- Product updates via `ProductResource.put` only ever touch the products table: the inventory
ledger is untouched by any product update. -/
theorem productPut_preserves_inventories (db : DB) (ut : String) (uid pid : Nat)
    (pdata : ProdPutData) :
    (ProductResource.put db ut uid pid pdata).2.inventories = db.inventories := by
  unfold ProductResource.put DB.setProduct
  simp only []
  repeat' split
  all_goals rfl

/-- C1: a Clerk-created inventory record satisfies, at creation,
items_in_stock = quantity_received - items_spoilt and carries the product's
current prices as its snapshot fields; product updates never touch inventory
records, so the snapshots survive later price edits. -/
theorem inventory_creation_snapshot :
    (∀ (db : DB) (uid : Nat) (data : InvPostData),
      (InventoryListResource.post db "clerk" uid data).resp.status = 201 →
      ∃ r product,
        (InventoryListResource.post db "clerk" uid data).created = some r ∧
        db.products.find? (fun p => (p.id : Int) == data.product_id.getD 0)
          = some product ∧
        r.items_in_stock = r.quantity_received - r.items_spoilt ∧
        r.buying_price_at_record = product.buying_price ∧
        r.selling_price_at_record = product.selling_price) ∧
    (∀ (db : DB) (ut : String) (uid pid : Nat) (pdata : ProdPutData),
      (ProductResource.put db ut uid pid pdata).2.inventories = db.inventories) := by
  refine ⟨?_, productPut_preserves_inventories⟩
  intro db uid data h
  generalize hL : InventoryListResource.post db "clerk" uid data = L at h ⊢
  unfold InventoryListResource.post at hL
  simp only [] at hL
  split at hL
  · rw [← hL] at h; simp at h
  · split at hL
    next => rw [← hL] at h; simp at h
    next clerk hclerk =>
      split at hL
      · rw [← hL] at h; simp at h
      · split at hL
        · rw [← hL] at h; simp at h
        · split at hL
          next => rw [← hL] at h; simp at h
          next product hp =>
            split at hL
            next => rw [← hL] at h; simp at h
            next store hstore =>
              split at hL
              · rw [← hL] at h; simp at h
              · subst hL
                exact ⟨_, product, rfl, hp, rfl, rfl, rfl⟩

/-- Merchant update tail: the selling-price block commits with 200 when the
present value is non-negative. -/
theorem mStepSelling_ok (db : DB) (rid : Nat) (data : InvPutData) (r : Inventory)
    (h : 0 ≤ data.selling_price_at_record.getD 0) :
    (mStepSelling db rid data r).1 =
      ⟨200, "Inventory record updated successfully"⟩ := by
  unfold mStepSelling
  rcases hv : data.selling_price_at_record with _ | v
  · simp [hv]
  · simp only [hv] at h ⊢
    simp only [Option.getD_some] at h
    rw [if_neg (not_lt.mpr h)]

/-- Merchant update: buying-price block. -/
theorem mStepBuying_ok (db : DB) (rid : Nat) (data : InvPutData) (r : Inventory)
    (h4 : 0 ≤ data.buying_price_at_record.getD 0)
    (h5 : 0 ≤ data.selling_price_at_record.getD 0) :
    (mStepBuying db rid data r).1 =
      ⟨200, "Inventory record updated successfully"⟩ := by
  unfold mStepBuying
  rcases hv : data.buying_price_at_record with _ | v
  · simp only [hv]
    exact mStepSelling_ok _ _ _ _ h5
  · simp only [hv] at h4 ⊢
    simp only [Option.getD_some] at h4
    rw [if_neg (not_lt.mpr h4)]
    exact mStepSelling_ok _ _ _ _ h5

/-- Merchant update: payment-status block. -/
theorem mStepPayment_ok (db : DB) (rid : Nat) (data : InvPutData) (r : Inventory)
    (h4 : 0 ≤ data.buying_price_at_record.getD 0)
    (h5 : 0 ≤ data.selling_price_at_record.getD 0) :
    (mStepPayment db rid data r).1 =
      ⟨200, "Inventory record updated successfully"⟩ := by
  unfold mStepPayment
  rcases hv : data.payment_status with _ | v <;> simp only [hv] <;>
    exact mStepBuying_ok _ _ _ _ h4 h5

/-- Merchant update: items-spoilt block. -/
theorem mStepSpoilt_ok (db : DB) (rid : Nat) (data : InvPutData) (r : Inventory)
    (h3 : 0 ≤ data.items_spoilt.getD 0)
    (h4 : 0 ≤ data.buying_price_at_record.getD 0)
    (h5 : 0 ≤ data.selling_price_at_record.getD 0) :
    (mStepSpoilt db rid data r).1 =
      ⟨200, "Inventory record updated successfully"⟩ := by
  unfold mStepSpoilt
  rcases hv : data.items_spoilt with _ | v
  · simp only [hv]
    exact mStepPayment_ok _ _ _ _ h4 h5
  · simp only [hv] at h3 ⊢
    simp only [Option.getD_some] at h3
    rw [if_neg (not_lt.mpr h3)]
    exact mStepPayment_ok _ _ _ _ h4 h5

/-- Merchant update: items-in-stock block. -/
theorem mStepStock_ok (db : DB) (rid : Nat) (data : InvPutData) (r : Inventory)
    (h2 : 0 ≤ data.items_in_stock.getD 0)
    (h3 : 0 ≤ data.items_spoilt.getD 0)
    (h4 : 0 ≤ data.buying_price_at_record.getD 0)
    (h5 : 0 ≤ data.selling_price_at_record.getD 0) :
    (mStepStock db rid data r).1 =
      ⟨200, "Inventory record updated successfully"⟩ := by
  unfold mStepStock
  rcases hv : data.items_in_stock with _ | v
  · simp only [hv]
    exact mStepSpoilt_ok _ _ _ _ h3 h4 h5
  · simp only [hv] at h2 ⊢
    simp only [Option.getD_some] at h2
    rw [if_neg (not_lt.mpr h2)]
    exact mStepSpoilt_ok _ _ _ _ h3 h4 h5

/-- When every present numeric field of a merchant update is non-negative,
the merchant section applies them all and commits with 200. -/
theorem merchantInvUpdate_status200 (db : DB) (rid : Nat) (data : InvPutData)
    (record : Inventory)
    (h1 : 0 ≤ data.quantity_received.getD 0)
    (h2 : 0 ≤ data.items_in_stock.getD 0)
    (h3 : 0 ≤ data.items_spoilt.getD 0)
    (h4 : 0 ≤ data.buying_price_at_record.getD 0)
    (h5 : 0 ≤ data.selling_price_at_record.getD 0) :
    (merchantInvUpdate db rid data record).1 =
      ⟨200, "Inventory record updated successfully"⟩ := by
  unfold merchantInvUpdate
  rcases hv : data.quantity_received with _ | v
  · simp only [hv]
    exact mStepStock_ok _ _ _ _ h2 h3 h4 h5
  · simp only [hv] at h1 ⊢
    simp only [Option.getD_some] at h1
    rw [if_neg (not_lt.mpr h1)]
    exact mStepStock_ok _ _ _ _ h2 h3 h4 h5

/-- C2: an Admin update naming any field beyond payment_status, or a Clerk
update naming any field beyond items_in_stock/items_spoilt, is rejected whole
with 403 and the record (indeed the whole database) is unchanged; a Merchant
may mix any subset of (validly valued) fields and the update succeeds. -/
theorem inventory_update_field_permissions :
    (∀ (db : DB) (uid rid : Nat) (data : InvPutData) (record : Inventory),
      db.getInventory rid = some record →
      (data.quantity_received.isSome || data.items_in_stock.isSome
        || data.items_spoilt.isSome || data.buying_price_at_record.isSome
        || data.selling_price_at_record.isSome) = true →
      (InventoryResource.put db "admin" uid rid data).1.status = 403 ∧
      (InventoryResource.put db "admin" uid rid data).2 = db) ∧
    (∀ (db : DB) (uid rid : Nat) (data : InvPutData) (record : Inventory),
      db.getInventory rid = some record →
      (data.payment_status.isSome || data.quantity_received.isSome
        || data.buying_price_at_record.isSome
        || data.selling_price_at_record.isSome) = true →
      (InventoryResource.put db "clerk" uid rid data).1.status = 403 ∧
      (InventoryResource.put db "clerk" uid rid data).2 = db) ∧
    (∀ (db : DB) (uid rid : Nat) (data : InvPutData) (record : Inventory),
      db.getInventory rid = some record →
      0 ≤ data.quantity_received.getD 0 →
      0 ≤ data.items_in_stock.getD 0 →
      0 ≤ data.items_spoilt.getD 0 →
      0 ≤ data.buying_price_at_record.getD 0 →
      0 ≤ data.selling_price_at_record.getD 0 →
      (InventoryResource.put db "merchant" uid rid data).1 =
        ⟨200, "Inventory record updated successfully"⟩) := by
  refine ⟨?_, ?_, ?_⟩
  · intro db uid rid data record hrec hdis
    unfold InventoryResource.put
    rcases hA : db.getAdmin uid with _ | admin
    · simp [hrec, hA]
    · by_cases hm : adminStoreMismatch admin record
      · simp [hrec, hA, hm]
      · simp [hrec, hA, hm, hdis]
  · intro db uid rid data record hrec hdis
    unfold InventoryResource.put
    rcases hC : db.getClerk uid with _ | clerk
    · simp [hrec, hC]
    · by_cases hown : (some clerk.id == record.clerk_id) = true
      · simp [hrec, hC, hown, hdis]
      · simp [hrec, hC, hown]
  · intro db uid rid data record hrec h1 h2 h3 h4 h5
    unfold InventoryResource.put
    simp only [hrec]
    simpa using merchantInvUpdate_status200 db rid data record h1 h2 h3 h4 h5

end MyDuka

namespace MyDuka

/-- C6 counterexample: a Merchant update carrying zero recognized fields is
not rejected as a no-op: it commits vacuously and reports success (200),
refuting the claim for the Merchant role. -/
theorem noop_update_merchant_accepted :
    InventoryResource.put sampleDb "merchant" 1 1 noFieldsUpdate =
      (⟨200, "Inventory record updated successfully"⟩, sampleDb) := by
  rfl

/-- C6 (amended): an authorized Admin or Clerk update with zero recognized
fields is rejected 400 as a no-op with the database unchanged, while a
Merchant zero-field update is accepted as a successful (vacuous) update. -/
theorem noop_update_role_behavior :
    (∀ (db : DB) (uid rid : Nat) (record : Inventory) (admin : Admin),
      db.getInventory rid = some record →
      db.getAdmin uid = some admin →
      adminStoreMismatch admin record = false →
      InventoryResource.put db "admin" uid rid noFieldsUpdate =
        (⟨400, "No valid fields for Admin to update provided"⟩, db)) ∧
    (∀ (db : DB) (uid rid : Nat) (record : Inventory) (clerk : Clerk),
      db.getInventory rid = some record →
      db.getClerk uid = some clerk →
      record.clerk_id = some clerk.id →
      InventoryResource.put db "clerk" uid rid noFieldsUpdate =
        (⟨400, "No valid fields for Clerk to update provided"⟩, db)) ∧
    (∀ (db : DB) (uid rid : Nat) (record : Inventory),
      db.getInventory rid = some record →
      (InventoryResource.put db "merchant" uid rid noFieldsUpdate).1 =
        ⟨200, "Inventory record updated successfully"⟩) := by
  refine ⟨?_, ?_, ?_⟩
  · intro db uid rid record admin hrec hA hm
    simp [InventoryResource.put, noFieldsUpdate, hrec, hA, hm]
  · intro db uid rid record clerk hrec hC hown
    simp [InventoryResource.put, noFieldsUpdate, hrec, hC, hown]
  · intro db uid rid record hrec
    unfold InventoryResource.put
    simp only [hrec]
    simpa using merchantInvUpdate_status200 db rid noFieldsUpdate record
      (by simp [noFieldsUpdate]) (by simp [noFieldsUpdate])
      (by simp [noFieldsUpdate]) (by simp [noFieldsUpdate])
      (by simp [noFieldsUpdate])

/-- C7 counterexample: a deactivated merchant (`is_active = false`) passes
`merchant_required` and successfully deletes an inventory record (204), so
not every operation on behalf of an inactive principal is rejected with an
account-inactive 403. -/
theorem inactive_merchant_operation_not_rejected :
    dbInactiveMerchant.getMerchant 1 = some inactiveMerchant ∧
    inactiveMerchant.is_active = false ∧
    merchant_required dbInactiveMerchant 1 = true ∧
    (InventoryResource.delete dbInactiveMerchant 1 1).1 =
      ⟨204, "Inventory record deleted successfully"⟩ :=
  ⟨rfl, rfl, rfl, rfl⟩

/-- C7 (amended): the active flag is enforced at login only — login for a
resolved but deactivated principal, whichever of the three role tables
(Merchant, Admin, Clerk) resolves it, fails with the dedicated 403
account-inactive message (distinct from the 401 invalid-credentials error) —
while the permission decorators never consult the flag, so post-login
operations by an inactive principal are not rejected. -/
theorem inactive_account_checked_at_login_only :
    (∀ (verify : String → String → Bool) (ve : String → Bool) (db : DB)
      (email password : Option String) (aj rj : String) (ae re : Nat)
      (m : Merchant),
      truthyStr email = true → truthyStr password = true →
      ve (email.getD "") = true →
      db.merchantByEmail (email.getD "") = some m →
      verify (password.getD "") m.password_hash = true →
      m.is_active = false →
      (UserLogin.post verify ve db email password aj rj ae re).resp =
        ⟨403, "Account is inactive. Please contact support."⟩) ∧
    (∀ (verify : String → String → Bool) (ve : String → Bool) (db : DB)
      (email password : Option String) (aj rj : String) (ae re : Nat)
      (a : Admin),
      truthyStr email = true → truthyStr password = true →
      ve (email.getD "") = true →
      db.merchantByEmail (email.getD "") = none →
      db.adminByEmail (email.getD "") = some a →
      verify (password.getD "") a.password_hash = true →
      a.is_active = false →
      (UserLogin.post verify ve db email password aj rj ae re).resp =
        ⟨403, "Account is inactive. Please contact support."⟩) ∧
    (∀ (verify : String → String → Bool) (ve : String → Bool) (db : DB)
      (email password : Option String) (aj rj : String) (ae re : Nat)
      (c : Clerk),
      truthyStr email = true → truthyStr password = true →
      ve (email.getD "") = true →
      db.merchantByEmail (email.getD "") = none →
      db.adminByEmail (email.getD "") = none →
      db.clerkByEmail (email.getD "") = some c →
      verify (password.getD "") c.password_hash = true →
      c.is_active = false →
      (UserLogin.post verify ve db email password aj rj ae re).resp =
        ⟨403, "Account is inactive. Please contact support."⟩) ∧
    (∀ (db : DB) (uid : Nat) (m : Merchant),
      db.getMerchant uid = some m → m.is_superuser = true →
      merchant_required db uid = true) ∧
    (∀ (db : DB) (uid : Nat) (a : Admin),
      db.getAdmin uid = some a →
      admin_required db uid = true) ∧
    ((⟨403, "Account is inactive. Please contact support."⟩ : Resp) ≠
      ⟨401, "Invalid credentials"⟩) := by
  refine ⟨?_, ?_, ?_, ?_, ?_, by decide⟩
  · intro verify ve db email password aj rj ae re m h1 h2 hve hm hverify hact
    simp [UserLogin.post, h1, h2, hve, hm, hverify, hact, loginFail]
  · intro verify ve db email password aj rj ae re a h1 h2 hve hm ha hverify hact
    simp [UserLogin.post, h1, h2, hve, hm, ha, hverify, hact, loginFail]
  · intro verify ve db email password aj rj ae re c h1 h2 hve hm ha hc hverify hact
    simp [UserLogin.post, h1, h2, hve, hm, ha, hc, hverify, hact, loginFail]
  · intro db uid m hM hsup
    simp [merchant_required, hM, hsup]
  · intro db uid a hA
    simp [admin_required, hA]

/-- Replacing, in a clerks table, the row found for `uid` by a row `t` with
the same id makes `t` the row found for `uid`. -/
theorem find?_clerk_replace (l : List Clerk) (uid : Nat) (c t : Clerk)
    (h : l.find? (fun x => x.id == uid) = some c) (ht : t.id = c.id) :
    (l.map (fun x => if x.id == c.id then t else x)).find? (fun x => x.id == uid)
      = some t := by
  induction l with
  | nil => simp at h
  | cons a tl ih =>
    by_cases ha : (a.id == uid) = true
    · simp only [List.find?_cons, ha] at h
      obtain rfl : a = c := by injection h
      simp [List.find?_cons, ht, ha]
    · have ha' : (a.id == uid) = false := by
        revert ha; cases (a.id == uid) <;> simp
      simp only [List.find?_cons, ha'] at h
      have hcu : (c.id == uid) = true :=
        @List.find?_some _ (fun x => x.id == uid) c tl h
      have hac : ¬((a.id == c.id) = true) := by
        intro hcon
        have heq : a.id = c.id := by simpa using hcon
        rw [heq] at ha
        exact ha hcu
      simp only [List.map_cons, List.find?_cons, if_neg hac, ha']
      exact ih h

/-- The commit of a clerk update never reports 403. -/
theorem clerkCommit_status (db : DB) (target t : Clerk) :
    (clerkCommit db target t).1.status ≠ 403 := by
  unfold clerkCommit
  split <;> simp

/-- A plain clerk restating the stored active flag passes the active-status
block without a 403. -/
theorem clerkActiveStep_restate_status (db : DB) (data : ClerkPutData)
    (target t : Clerk) (hb : data.is_active = some target.is_active) :
    (clerkActiveStep db data target t false false).1.status ≠ 403 := by
  unfold clerkActiveStep
  simp only [hb, Option.getD_some, Bool.or_self, Bool.false_eq_true, if_false,
    beq_self_eq_true, Bool.not_true]
  exact clerkCommit_status db target t

/-- Password block: restating clerk, no 403. -/
theorem clerkPwStep_restate_status (hashPw : String → String) (db : DB)
    (data : ClerkPutData) (target t : Clerk)
    (hb : data.is_active = some target.is_active) :
    (clerkPwStep hashPw db data target t false false).1.status ≠ 403 := by
  unfold clerkPwStep
  rcases hp : data.password with _ | p <;> simp only [hp]
  · exact clerkActiveStep_restate_status _ _ _ _ hb
  · split_ifs with h1 h2
    · simp
    · exact clerkActiveStep_restate_status _ _ _ _ hb
    · exact clerkActiveStep_restate_status _ _ _ _ hb

/-- Email block: restating clerk, no 403. -/
theorem clerkEmailStep_restate_status (ve : String → Bool)
    (hashPw : String → String) (db : DB) (data : ClerkPutData)
    (target t : Clerk) (hb : data.is_active = some target.is_active) :
    (clerkEmailStep ve hashPw db data target t false false).1.status ≠ 403 := by
  unfold clerkEmailStep
  simp only []
  split_ifs with h1 h2
  · simp
  · exact clerkPwStep_restate_status _ _ _ _ _ hb
  · exact clerkPwStep_restate_status _ _ _ _ _ hb

/-- A plain clerk proposing a different active flag is rejected 403 by the
active-status block, database untouched. -/
theorem clerkActiveStep_reject (db : DB) (data : ClerkPutData)
    (target t : Clerk) (b : Bool)
    (hb : data.is_active = some b) (hne : b ≠ target.is_active) :
    clerkActiveStep db data target t false false =
      (⟨403, "Clerks cannot change their own active status"⟩, db) := by
  unfold clerkActiveStep
  simp [hb, hne]

/-- Password block: differing active flag still reaches the 403, for any
valid present password. -/
theorem clerkPwStep_reject (hashPw : String → String) (db : DB)
    (data : ClerkPutData) (target t : Clerk) (b : Bool)
    (hb : data.is_active = some b) (hne : b ≠ target.is_active)
    (hpw : ∀ p, data.password = some p → p ≠ "" → validate_password p = true) :
    clerkPwStep hashPw db data target t false false =
      (⟨403, "Clerks cannot change their own active status"⟩, db) := by
  unfold clerkPwStep
  rcases hp : data.password with _ | p <;> simp only [hp]
  · exact clerkActiveStep_reject _ _ _ _ _ hb hne
  · by_cases h1 : (p != "") = true
    · rw [if_pos h1]
      rw [if_neg (by simp [hpw p hp (by simpa using h1)])]
      exact clerkActiveStep_reject _ _ _ _ _ hb hne
    · rw [if_neg h1]
      exact clerkActiveStep_reject _ _ _ _ _ hb hne

/-- Email block: differing active flag still reaches the 403, for any valid
effective email. -/
theorem clerkEmailStep_reject (ve : String → Bool) (hashPw : String → String)
    (db : DB) (data : ClerkPutData) (target t : Clerk) (b : Bool)
    (hb : data.is_active = some b) (hne : b ≠ target.is_active)
    (hpw : ∀ p, data.password = some p → p ≠ "" → validate_password p = true)
    (hve : data.email.getD target.email = "" ∨
      ve (data.email.getD target.email) = true) :
    clerkEmailStep ve hashPw db data target t false false =
      (⟨403, "Clerks cannot change their own active status"⟩, db) := by
  unfold clerkEmailStep
  by_cases he : (data.email.getD target.email != "") = true
  · rw [if_pos he]
    rcases hve with hve | hve
    · exfalso; simp [hve] at he
    · rw [if_neg (by simp [hve])]
      exact clerkPwStep_reject _ _ _ _ _ _ hb hne hpw
  · rw [if_neg he]
    exact clerkPwStep_reject _ _ _ _ _ _ hb hne hpw

/-- The commit either rolls back (409) or replaces the target row by `t`. -/
theorem clerkCommit_outcome (db : DB) (target t : Clerk) :
    (clerkCommit db target t).2 = db ∨
    (clerkCommit db target t).2 = db.setClerk target.id t := by
  unfold clerkCommit
  split
  · left; rfl
  · right; rfl

/-- Active-status block of a plain clerk: database unchanged or the committed
row keeps the id and active flag of the incoming row. -/
theorem clerkActiveStep_self_outcome (db : DB) (data : ClerkPutData)
    (target t : Clerk) :
    (clerkActiveStep db data target t false false).2 = db ∨
    ∃ u, u.id = t.id ∧ u.is_active = t.is_active ∧
      (clerkActiveStep db data target t false false).2 =
        db.setClerk target.id u := by
  unfold clerkActiveStep
  simp only []
  split
  next h => simp at h
  next =>
    split
    · left; rfl
    · rcases clerkCommit_outcome db target t with hco | hco
      · left; exact hco
      · right; exact ⟨t, rfl, rfl, hco⟩

/-- Password block of a plain clerk: same outcome shape. -/
theorem clerkPwStep_self_outcome (hashPw : String → String) (db : DB)
    (data : ClerkPutData) (target t : Clerk) :
    (clerkPwStep hashPw db data target t false false).2 = db ∨
    ∃ u, u.id = t.id ∧ u.is_active = t.is_active ∧
      (clerkPwStep hashPw db data target t false false).2 =
        db.setClerk target.id u := by
  unfold clerkPwStep
  rcases hp : data.password with _ | p <;> simp only [hp]
  · exact clerkActiveStep_self_outcome db data target t
  · split
    · split
      · left; rfl
      · exact clerkActiveStep_self_outcome db data target _
    · exact clerkActiveStep_self_outcome db data target t

/-- The self-update pipeline of a plain clerk either leaves the database
unchanged or commits a row with the same id and the same active flag. -/
theorem clerkEmailStep_self_outcome (ve : String → Bool)
    (hashPw : String → String) (db : DB) (data : ClerkPutData)
    (target t : Clerk) :
    (clerkEmailStep ve hashPw db data target t false false).2 = db ∨
    ∃ u, u.id = t.id ∧ u.is_active = t.is_active ∧
      (clerkEmailStep ve hashPw db data target t false false).2 =
        db.setClerk target.id u := by
  unfold clerkEmailStep
  simp only []
  split
  · split
    · left; rfl
    · exact clerkPwStep_self_outcome hashPw db data target _
  · exact clerkPwStep_self_outcome hashPw db data target t

/-- A plain clerk's own-profile update leaves the database unchanged or
replaces their row by one with the same id and active flag. -/
theorem clerkSelfPut_outcome (ve : String → Bool) (hashPw : String → String)
    (db : DB) (uid : Nat) (data : ClerkPutData) (clerk : Clerk)
    (hM : db.getMerchant uid = none) (hA : db.getAdmin uid = none)
    (hC : db.getClerk uid = some clerk) :
    (ClerkResource.put ve hashPw db uid none data).2 = db ∨
    ∃ u, u.id = clerk.id ∧ u.is_active = clerk.is_active ∧
      (ClerkResource.put ve hashPw db uid none data).2 =
        db.setClerk clerk.id u := by
  unfold ClerkResource.put
  simp only [hM, hA, hC, Option.isSome_none]
  split
  · exact clerkEmailStep_self_outcome ve hashPw db data clerk _
  · exact clerkEmailStep_self_outcome ve hashPw db data clerk _

/-- C10: a Clerk updating their own profile cannot change their active flag —
a differing `is_active` is rejected 403 with the database unchanged, a
restated value is not rejected, the stored flag survives any self-update —
while a Merchant (superuser) updating the clerk does set the flag. -/
theorem clerk_active_flag_protection :
    (∀ (ve : String → Bool) (hashPw : String → String) (db : DB) (uid : Nat)
      (clerk : Clerk) (data : ClerkPutData) (b : Bool),
      db.getMerchant uid = none → db.getAdmin uid = none →
      db.getClerk uid = some clerk →
      data.is_active = some b → b ≠ clerk.is_active →
      (∀ p, data.password = some p → p ≠ "" → validate_password p = true) →
      (data.email.getD clerk.email = "" ∨ ve (data.email.getD clerk.email) = true) →
      ClerkResource.put ve hashPw db uid none data =
        (⟨403, "Clerks cannot change their own active status"⟩, db)) ∧
    (∀ (ve : String → Bool) (hashPw : String → String) (db : DB) (uid : Nat)
      (clerk : Clerk) (data : ClerkPutData),
      db.getMerchant uid = none → db.getAdmin uid = none →
      db.getClerk uid = some clerk →
      data.is_active = some clerk.is_active →
      (ClerkResource.put ve hashPw db uid none data).1.status ≠ 403) ∧
    (∀ (ve : String → Bool) (hashPw : String → String) (db : DB) (uid : Nat)
      (clerk : Clerk) (data : ClerkPutData) (c2 : Clerk),
      db.getMerchant uid = none → db.getAdmin uid = none →
      db.getClerk uid = some clerk →
      (ClerkResource.put ve hashPw db uid none data).2.getClerk uid = some c2 →
      c2.is_active = clerk.is_active) ∧
    (∀ (ve : String → Bool) (hashPw : String → String) (db : DB)
      (uid cid : Nat) (m : Merchant) (clerk : Clerk) (b : Bool),
      db.getMerchant uid = some m → m.is_superuser = true →
      db.getClerk cid = some clerk →
      (clerk.email = "" ∨ ve clerk.email = true) →
      db.clerks.any (fun c => !(c.id == clerk.id)
        && (c.username == clerk.username || c.email == clerk.email)) = false →
      ∃ c2, (ClerkResource.put ve hashPw db uid (some cid)
          ⟨none, none, none, some b⟩).2.getClerk cid = some c2 ∧
        c2.is_active = b) := by
  refine ⟨?_, ?_, ?_, ?_⟩
  · intro ve hashPw db uid clerk data b hM hA hC hb hne hpw hve
    unfold ClerkResource.put
    simp only [hM, hA, hC, Option.isSome_none]
    split
    · exact clerkEmailStep_reject _ _ _ _ _ _ _ hb hne hpw hve
    · exact clerkEmailStep_reject _ _ _ _ _ _ _ hb hne hpw hve
  · intro ve hashPw db uid clerk data hM hA hC hb
    unfold ClerkResource.put
    simp only [hM, hA, hC, Option.isSome_none]
    split
    · exact clerkEmailStep_restate_status _ _ _ _ _ _ hb
    · exact clerkEmailStep_restate_status _ _ _ _ _ _ hb
  · intro ve hashPw db uid clerk data c2 hM hA hC hc2
    rcases clerkSelfPut_outcome ve hashPw db uid data clerk hM hA hC with
      hout | ⟨u, hid, hact, hout⟩
    · rw [hout, hC] at hc2
      injection hc2 with hc2
      rw [← hc2]
    · rw [hout] at hc2
      have := find?_clerk_replace db.clerks uid clerk u hC hid
      rw [show (db.setClerk clerk.id u).getClerk uid
          = (db.clerks.map (fun x => if x.id == clerk.id then u else x)).find?
            (fun x => x.id == uid) from rfl] at hc2
      rw [this] at hc2
      injection hc2 with hc2
      rw [← hc2, hact]
  · intro ve hashPw db uid cid m clerk b hM hsup hC hve hnoconf
    refine ⟨{ clerk with is_active := b }, ?_, rfl⟩
    unfold ClerkResource.put clerkEmailStep clerkPwStep clerkActiveStep clerkCommit
    simp only [hM, hsup, hC, Bool.true_or, Bool.not_true, Bool.false_eq_true,
      if_false, Option.getD_none, Option.getD_some]
    have ht1 : (if (clerk.username != "") = true
        then { clerk with username := clerk.username } else clerk) = clerk := by
      split <;> rfl
    rw [ht1]
    by_cases he : (clerk.email != "") = true
    · rw [if_pos he]
      have hval : ve clerk.email = true := by
        rcases hve with h | h
        · exfalso; simp [h] at he
        · exact h
      rw [if_neg (by simp [hval])]
      have ht2 : ({ clerk with email := clerk.email } : Clerk) = clerk := rfl
      rw [ht2, hnoconf]
      simp only [Bool.false_eq_true, if_false]
      exact find?_clerk_replace db.clerks cid clerk _ hC rfl
    · rw [if_neg he, hnoconf]
      simp only [Bool.false_eq_true, if_false]
      exact find?_clerk_replace db.clerks cid clerk _ hC rfl

end MyDuka

namespace MyDuka

/-- Witness for the C1 theorem at the sample database: the sample clerk's
creation request for 7 received / 2 spoilt of the sample product. -/
theorem inventory_creation_snapshot_witness :
    ∃ r product,
      (InventoryListResource.post sampleDb "clerk" 4 samplePostData).created
        = some r ∧
      sampleDb.products.find?
        (fun p => (p.id : Int) == samplePostData.product_id.getD 0)
        = some product ∧
      r.items_in_stock = r.quantity_received - r.items_spoilt ∧
      r.buying_price_at_record = product.buying_price ∧
      r.selling_price_at_record = product.selling_price :=
  inventory_creation_snapshot.1 sampleDb 4 samplePostData (by rfl)

/-- Witness for the C2 theorem: the sample admin mixing payment_status with
items_spoilt is rejected whole, database unchanged. -/
theorem inventory_update_field_permissions_witness :
    (InventoryResource.put sampleDb "admin" 2 1
      ⟨none, none, some 10, some true, none, none⟩).1.status = 403 ∧
    (InventoryResource.put sampleDb "admin" 2 1
      ⟨none, none, some 10, some true, none, none⟩).2 = sampleDb :=
  inventory_update_field_permissions.1 sampleDb 2 1
    ⟨none, none, some 10, some true, none, none⟩ sampleRecord rfl rfl

/-- Witness for the C4 theorem at the storeless sample admin. -/
theorem storeless_admin_inventory_denied_witness :
    InventoryListResource.get sampleDb "admin" 3 =
      (⟨403, "Admin not assigned to a store. Cannot view specific inventory records."⟩,
        none) ∧
    InventoryListResource.post sampleDb "admin" 3 samplePostData =
      ⟨⟨403, "Clerk access required"⟩, sampleDb, none⟩ :=
  ⟨(storeless_admin_inventory_denied sampleDb 3 sampleAdminNoStore rfl rfl).1,
    (storeless_admin_inventory_denied sampleDb 3 sampleAdminNoStore rfl rfl).2
      samplePostData⟩

/-- Witness for the C5 theorem: the sample clerk (store 10) posting to the
existing store 20. -/
theorem clerk_store_scope_enforced_witness :
    InventoryListResource.post sampleDb "clerk" 4 sampleWrongStorePost =
      ⟨⟨403, "Clerk is not assigned to this store"⟩, sampleDb, none⟩ :=
  clerk_store_scope_enforced sampleDb 4 sampleClerk 10 sampleWrongStorePost
    sampleProduct ⟨20, "Branch"⟩ rfl rfl (by decide) (by decide) rfl rfl rfl
    (by decide) (by decide) rfl rfl

/-- Witness for the amended C6 theorem: the sample admin's empty update is a
400 no-op. -/
theorem noop_update_role_behavior_witness :
    InventoryResource.put sampleDb "admin" 2 1 noFieldsUpdate =
      (⟨400, "No valid fields for Admin to update provided"⟩, sampleDb) :=
  noop_update_role_behavior.1 sampleDb 2 1 sampleRecord sampleAdmin rfl rfl rfl

/-- Witness for the amended C7 theorem: login as the deactivated merchant,
the deactivated admin and the deactivated clerk each yield the dedicated
account-inactive 403. -/
theorem inactive_account_checked_at_login_only_witness :
    (UserLogin.post (fun p h => p == h) (fun _ => true) dbInactiveMerchant
      (some "mona@duka.com") (some "hi") "j1" "j2" 10 20).resp =
      ⟨403, "Account is inactive. Please contact support."⟩ ∧
    (UserLogin.post (fun p h => p == h) (fun _ => true) dbInactiveAdmin
      (some "ada@duka.com") (some "hp") "j1" "j2" 10 20).resp =
      ⟨403, "Account is inactive. Please contact support."⟩ ∧
    (UserLogin.post (fun p h => p == h) (fun _ => true) dbInactiveClerk
      (some "cla@duka.com") (some "hq") "j1" "j2" 10 20).resp =
      ⟨403, "Account is inactive. Please contact support."⟩ :=
  ⟨inactive_account_checked_at_login_only.1 (fun p h => p == h) (fun _ => true)
      dbInactiveMerchant (some "mona@duka.com") (some "hi") "j1" "j2" 10 20
      inactiveMerchant rfl rfl rfl rfl rfl rfl,
    inactive_account_checked_at_login_only.2.1 (fun p h => p == h) (fun _ => true)
      dbInactiveAdmin (some "ada@duka.com") (some "hp") "j1" "j2" 10 20
      inactiveAdmin rfl rfl rfl rfl rfl rfl rfl,
    inactive_account_checked_at_login_only.2.2.1 (fun p h => p == h) (fun _ => true)
      dbInactiveClerk (some "cla@duka.com") (some "hq") "j1" "j2" 10 20
      inactiveClerk rfl rfl rfl rfl rfl rfl rfl rfl⟩

/-- Witness for the C8 theorem: re-creating "Rice" in the sample catalog. -/
theorem product_name_conflict_witness :
    ProductListResource.post sampleDb "merchant" 1
      ⟨some "Rice", none, some 3, some 4⟩ =
      ⟨⟨409, "Product with this name already exists"⟩, sampleDb, none⟩ :=
  product_name_conflict sampleDb 1 ⟨some "Rice", none, some 3, some 4⟩
    sampleProduct (by simp [sampleDb]) rfl (by decide) (by decide) rfl
    (by decide) (by decide)

/-- Witness for the C9 theorem at the duplicated email: the successful login
authenticates as the merchant. -/
theorem login_role_priority_witness :
    (UserLogin.post (fun p h => p == h) (fun _ => true) dbDupEmail
      (some "dup@duka.com") (some "pw") "j1" "j2" 10 20).user_type
      = some "merchant" :=
  (login_role_priority (fun p h => p == h) (fun _ => true) dbDupEmail
    (some "dup@duka.com") (some "pw") "j1" "j2" 10 20 (by rfl)).1 (by rfl)

/-- Witness for the C10 theorem: the sample clerk trying to flip their own
active flag is rejected 403 with the database unchanged. -/
theorem clerk_active_flag_protection_witness :
    ClerkResource.put (fun _ => true) (fun s => s) sampleDb 4 none
      ⟨none, none, none, some false⟩ =
      (⟨403, "Clerks cannot change their own active status"⟩, sampleDb) :=
  clerk_active_flag_protection.1 (fun _ => true) (fun s => s) sampleDb 4
    sampleClerk ⟨none, none, none, some false⟩ false rfl rfl rfl rfl
    (by decide) (by intro p hp; simp at hp) (Or.inr rfl)

end MyDuka
